import Mathlib

/-
Verification of the nilo Go library (github.com/javiorfo/nilo): a generic
Option/Optional container over a nullable internal pointer, with combinators,
in-place mutation on pointer receivers, default-capability resolution and
JSON (de)serialization.

Embedding conventions:
  * A Go pointer `*T` is modelled by `Nilo.Ptr T` (`null` or `ref v`).
  * The Go structs `Option[T]{ value *T }` (option.go) and
    `Optional[T]{ value *T }` (optional.go) are modelled by structures with a
    single `Ptr` field, mirroring the source layout.
  * A Go method with a value receiver gets the receiver by copy and (in this
    library) never writes through the shared `value` pointer, so a call leaves
    the caller's binding untouched; `callByValue` encodes such a call on a
    binding.  Methods with pointer receivers are modelled in state-passing
    style, returning the binding after the call together with the result.
  * A run-time panic (dereferencing a nil `value` pointer, as in `Unwrap`/`Get`
    on an empty container) is modelled by `Exec.fault`; a normal return of `v`
    by `Exec.ok v`.
  * Go's `error` interface values are modelled by `Ptr E` for an error type
    `E`: `Ptr.null` is the nil error, `Ptr.ref e` a non-nil error.
  * Side-effecting callbacks (consumers, suppliers) are modelled as state
    transformers over an abstract world type `W`, so that "the callback was
    not invoked" is expressible as "the world is unchanged".
  * `encoding/json` for the wrapped type `T` is abstracted as a `Codec`:
    a total `marshal : T → String` and a fallible
    `unmarshal : String → Except String T`.  `natCodec` instantiates it
    faithfully for Go's `int`, and `ptrNatCodec` for Go's `*int` (whose nil
    value marshals to the literal `null`).
-/

namespace Nilo

/-- A Go pointer `*T`: either the nil pointer or a reference to a value. -/
inductive Ptr (T : Type) where
  | null : Ptr T
  | ref (v : T) : Ptr T
deriving DecidableEq

/-- Outcome of a Go expression that may panic: a normal value, or a panic
(`fault`), as raised by dereferencing a nil pointer. -/
inductive Exec (T : Type) where
  | ok (v : T) : Exec T
  | fault : Exec T
deriving DecidableEq

/-- option.go: `type Option[T any] struct { value *T }`. -/
structure Option (T : Type) where
  value : Ptr T
deriving DecidableEq

/-- optional.go: `type Optional[T any] struct { value *T }`. -/
structure Optional (T : Type) where
  value : Ptr T
deriving DecidableEq

variable {T E W α : Type}

/-- option.go `None[T any]() Option[T]`: the zero-value struct, nil pointer. -/
def None (T : Type) : Option T := ⟨Ptr.null⟩

/-- option.go `Some[T any](value T) Option[T]`: wraps a fresh pointer to a
copy of `value`. -/
def Some (v : T) : Option T := ⟨Ptr.ref v⟩

/-- option.go `SomePtr[T any](value *T) Option[T]`: adopts the given pointer,
nil pointer giving the empty option. -/
def SomePtr (p : Ptr T) : Option T := ⟨p⟩

namespace Option

/-- option.go `IsNone`: `o.value == nil`. -/
def IsNone (o : Option T) : Bool :=
  match o.value with
  | Ptr.null => true
  | Ptr.ref _ => false

/-- option.go `IsSome`: `o.value != nil`. -/
def IsSome (o : Option T) : Bool :=
  match o.value with
  | Ptr.null => false
  | Ptr.ref _ => true

/-- option.go `Unwrap`: `return *o.value` — dereferences the internal pointer,
panicking (`Exec.fault`) when it is nil. -/
def Unwrap (o : Option T) : Exec T :=
  match o.value with
  | Ptr.ref v => Exec.ok v
  | Ptr.null => Exec.fault

/-- option.go `UnwrapOr(other T)`: contained value if `Some`, else `other`. -/
def UnwrapOr (o : Option T) (other : T) : T :=
  match o.value with
  | Ptr.ref v => v
  | Ptr.null => other

/-- option.go `Filter`: `if o.IsSome() && filter(o.Unwrap()) { return
Some(o.Unwrap()) }; return None[T]()`. -/
def Filter (o : Option T) (filter : T → Bool) : Option T :=
  match o.value with
  | Ptr.ref v => if filter v then Nilo.Some v else Nilo.None T
  | Ptr.null => Nilo.None T

/-- option.go `Inspect`: calls the consumer on the contained value when
`Some` (threading the world `w`), then returns the original option.  The Go
body is `if o.IsSome() { consumer(o.Unwrap()) }; return o`. -/
def Inspect (o : Option T) (consumer : T → W → W) (w : W) : W × Option T :=
  match o.value with
  | Ptr.ref v => (consumer v w, o)
  | Ptr.null => (w, o)

/-- Option.Map (same-type map): `if o.IsSome() { return Some(mapper(o.Unwrap()))
}; return None[T]()`. -/
def Map (o : Option T) (mapper : T → T) : Option T :=
  match o.value with
  | Ptr.ref v => Nilo.Some (mapper v)
  | Ptr.null => Nilo.None T

/-- option.go `And`: `if o.IsSome() && other.IsSome() { return other };
return None[T]()`. -/
def And (o other : Option T) : Option T :=
  if o.IsSome && other.IsSome then other else Nilo.None T

/-- option.go `Or`: `if o.IsSome() { return o }; if other.IsSome() { return
other }; return None[T]()`. -/
def Or (o other : Option T) : Option T :=
  if o.IsSome then o
  else if other.IsSome then other
  else Nilo.None T

/-- option.go `Xor`: returns whichever of the two options is `Some` when
exactly one is; otherwise `None`. -/
def Xor (o other : Option T) : Option T :=
  if o.IsSome && other.IsNone then o
  else if other.IsSome && o.IsNone then other
  else Nilo.None T

/-- option.go `Take` (pointer receiver): `oldValue := *o; o.value = nil;
return oldValue`.  Returns the binding after the call together with the
returned option. -/
def Take (o : Option T) : Option T × Option T :=
  (⟨Ptr.null⟩, o)

/-- option.go `OkOrElse` with an effectful error supplier: when `Some`,
returns the internal pointer and the nil error without touching the world
(the supplier is not invoked); when `None`, runs the supplier on the world
and returns the nil pointer together with its error.  Result is
`(world after the call, (pointer, error))`. -/
def OkOrElse (o : Option T) (err : W → W × E) (w : W) :
    W × (Ptr T × Ptr E) :=
  match o.value with
  | Ptr.ref v => (w, (Ptr.ref v, Ptr.null))
  | Ptr.null => ((err w).1, (Ptr.null, Ptr.ref (err w).2))

/-- option.go `InspectOrElse`: `if o.IsSome() { consumer(o.Unwrap()) } else
{ or() }` — exactly one of the two callbacks runs. -/
def InspectOrElse (o : Option T) (consumer : T → W → W) (or : W → W)
    (w : W) : W :=
  match o.value with
  | Ptr.ref v => consumer v w
  | Ptr.null => or w

end Option

/-- option.go `defaultImplOrNew[T]`: consults the `Default` capability of `T`
when declared (`defCap = Ptr.ref d`, where `d` is the `Default()` method,
invoked on the zero value `zero` of `T`), and otherwise returns the intrinsic
zero value `*new(T)`. -/
def defaultImplOrNew (zero : T) (defCap : Ptr (T → T)) : T :=
  match defCap with
  | Ptr.ref d => d zero
  | Ptr.null => zero

namespace Option

/-- option.go `UnwrapOrDefault`: `if o.IsSome() { return o.Unwrap() };
return defaultImplOrNew[T]()`. -/
def UnwrapOrDefault (o : Option T) (zero : T) (defCap : Ptr (T → T)) : T :=
  match o.value with
  | Ptr.ref v => v
  | Ptr.null => defaultImplOrNew zero defCap

/-- option.go `GetOrInsertWith` (pointer receiver): `if o.IsNone() { *o =
Some(supplier()) }; return o.Unwrap()`.  Returns the binding after the call
together with the returned value (`Exec` since `Unwrap` can in principle
panic). -/
def GetOrInsertWith (o : Option T) (supplier : Unit → T) :
    Option T × Exec T :=
  match o.value with
  | Ptr.ref v => (o, Exec.ok v)
  | Ptr.null => (Nilo.Some (supplier ()), Exec.ok (supplier ()))

/-- option.go `GetOrInsertDefault` (pointer receiver):
`o.GetOrInsertWith(func() T { return defaultImplOrNew[T]() })`. -/
def GetOrInsertDefault (o : Option T) (zero : T) (defCap : Ptr (T → T)) :
    Option T × Exec T :=
  o.GetOrInsertWith (fun _ => defaultImplOrNew zero defCap)

/-- result.go `AndPtrResult`: `if o.IsValue() { if r, err :=
apply(o.AsValue()); err == nil && r != nil { return Value(*r) } };
return Nil[T]()` (the `Value`/`Nil` names are this file's names for
`Some`/`None`). -/
def AndPtrResult (o : Option T) (apply : T → Ptr T × Ptr E) : Option T :=
  match o.value with
  | Ptr.ref v =>
      match apply v with
      | (Ptr.ref r, Ptr.null) => Nilo.Some r
      | (Ptr.ref _, Ptr.ref _) => Nilo.None T
      | (Ptr.null, _) => Nilo.None T
  | Ptr.null => Nilo.None T

end Option

/-- A Go method call with a VALUE receiver on a binding holding `bind`: the
callee gets a copy of the struct, and no method of this library with a value
receiver writes through the shared `value` pointer, so the binding after the
call is `bind` itself; the second component is the method's result. -/
def callByValue (bind : Option T) (method : Option T → α) : Option T × α :=
  (bind, method bind)

namespace Optional

/-- optional.go `IsEmpty`: `o.value == nil`. -/
def IsEmpty (o : Optional T) : Bool :=
  match o.value with
  | Ptr.null => true
  | Ptr.ref _ => false

/-- optional.go `IsPresent`: `o.value != nil`. -/
def IsPresent (o : Optional T) : Bool :=
  match o.value with
  | Ptr.null => false
  | Ptr.ref _ => true

/-- optional.go `Get`: `return *o.value` — dereferences the internal pointer,
panicking (`Exec.fault`) when the `Optional` is empty. -/
def Get (o : Optional T) : Exec T :=
  match o.value with
  | Ptr.ref v => Exec.ok v
  | Ptr.null => Exec.fault

/-- optional.go `OrError`: `if o.IsPresent() { return o.value, nil };
return nil, err` — the error here is caller-constructed (eager). -/
def OrError (o : Optional T) (err : E) : Ptr T × Ptr E :=
  match o.value with
  | Ptr.ref v => (Ptr.ref v, Ptr.null)
  | Ptr.null => (Ptr.null, Ptr.ref err)

/-- optional.go `IfPresentOrElse`: the body is `if o.IsPresent() {
consumer(o.Get()) }` followed unconditionally by `or()` — there is no `else`
in the source, so `or` runs after `consumer` even when a value is present. -/
def IfPresentOrElse (o : Optional T) (consumer : T → W → W) (or : W → W)
    (w : W) : W :=
  match o.value with
  | Ptr.ref v => or (consumer v w)
  | Ptr.null => or w

end Optional

/-- optional.go `Empty[T any]() Optional[T]`: the zero-value struct. -/
def Empty (T : Type) : Optional T := ⟨Ptr.null⟩

/-- optional.go `OfPtr[T any](value *T) Optional[T]`. -/
def OfPtr (p : Ptr T) : Optional T := ⟨p⟩

/-- optional.go `Of[T any](value T) Optional[T]`: `OfPtr(&value)`. -/
def Of (v : T) : Optional T := OfPtr (Ptr.ref v)

/-- The `encoding/json` codec of the wrapped type `T`: a total marshaller and
a fallible unmarshaller (`json.Marshal`/`json.Unmarshal` specialised to `T`).
The output and error are modelled as strings. -/
structure Codec (T : Type) where
  marshal : T → String
  unmarshal : String → Except String T

namespace Option

/-- impl.go `MarshalJSON`: `if o.IsNone() { return []byte("null"), nil };
return json.Marshal(o.value)` — `json.Marshal` on the non-nil pointer
marshals the pointee. -/
def MarshalJSON (c : Codec T) (o : Option T) : String × Ptr String :=
  match o.value with
  | Ptr.null => ("null", Ptr.null)
  | Ptr.ref v => (c.marshal v, Ptr.null)

/-- impl.go `UnmarshalJSON` (pointer receiver): `if bytes.Equal(data,
[]byte("null")) { o.value = nil; return nil }; var v T; if err :=
json.Unmarshal(data, &v); err != nil { return err }; o.value = &v; return
nil`.  Returns the binding after the call together with the returned error.
Note the error branch returns WITHOUT writing `o.value`. -/
def UnmarshalJSON (c : Codec T) (o : Option T) (data : String) :
    Option T × Ptr String :=
  if data = "null" then (⟨Ptr.null⟩, Ptr.null)
  else
    match c.unmarshal data with
    | Except.error e => (o, Ptr.ref e)
    | Except.ok v => (⟨Ptr.ref v⟩, Ptr.null)

end Option

/-- Reads a run of decimal digits, accumulating their value; any non-digit
character makes the whole parse fail, as `json.Unmarshal` rejects a
non-numeric token for an `int` target. -/
def digitsToNat : List Char → Nat → Except String Nat
  | [], acc => Except.ok acc
  | ch :: cs, acc =>
      if ch.isDigit then digitsToNat cs (acc * 10 + (ch.toNat - 48))
      else Except.error "invalid"

/-- `encoding/json` for Go `int` (restricted to naturals): marshals to the
decimal literal, unmarshals a decimal literal and rejects anything else. -/
def natCodec : Codec Nat where
  marshal n := toString n
  unmarshal s :=
    if s.data = [] then Except.error "invalid" else digitsToNat s.data 0

/-- `encoding/json` for Go `*int` (restricted to naturals): a nil pointer
marshals to the literal `null`, a non-nil one to the decimal literal of the
pointee; `null` unmarshals to the nil pointer, a decimal literal to a
pointer to its value, anything else is rejected. -/
def ptrNatCodec : Codec (Ptr Nat) where
  marshal p :=
    match p with
    | Ptr.null => "null"
    | Ptr.ref n => toString n
  unmarshal s :=
    if s = "null" then Except.ok Ptr.null
    else if s.data = [] then Except.error "invalid"
    else
      match digitsToNat s.data 0 with
      | Except.ok n => Except.ok (Ptr.ref n)
      | Except.error e => Except.error e

end Nilo

/-- C2: for every value `v`, `of(v)` is present and `get()`/`Unwrap` on it
returns `v`; and for every type, `get()`/`Unwrap` on the empty container
signals the fatal unrecoverable-access fault (panic) instead of returning a
value.  Covers both `Optional.Get` (optional.go) and `Option.Unwrap`
(option.go). -/
theorem Nilo.of_get_unwrap_contract (T : Type) (v : T) :
    (Nilo.Of v).IsPresent = true ∧
    (Nilo.Of v).Get = Nilo.Exec.ok v ∧
    (Nilo.Empty T).IsEmpty = true ∧
    (Nilo.Empty T).Get = Nilo.Exec.fault ∧
    (Nilo.Some v).IsSome = true ∧
    (Nilo.Some v).Unwrap = Nilo.Exec.ok v ∧
    (Nilo.None T).Unwrap = Nilo.Exec.fault := by
  refine ⟨rfl, rfl, rfl, rfl, rfl, rfl, rfl⟩

/-- C4: the full presence truth table of `And`/`Or`/`Xor` from option.go.
`and`: `other` when both are present, `None` otherwise; `or`: `self` when
present, else `other` when present, else `None`; `xor`: the unique present
one when exactly one is present, `None` when both or neither are. -/
theorem Nilo.and_or_xor_truth_table (T : Type) (v w : T) :
    (Nilo.Some v).And (Nilo.Some w) = Nilo.Some w ∧
    (Nilo.Some v).And (Nilo.None T) = Nilo.None T ∧
    (Nilo.None T).And (Nilo.Some w) = Nilo.None T ∧
    (Nilo.None T).And (Nilo.None T) = Nilo.None T ∧
    (Nilo.Some v).Or (Nilo.Some w) = Nilo.Some v ∧
    (Nilo.Some v).Or (Nilo.None T) = Nilo.Some v ∧
    (Nilo.None T).Or (Nilo.Some w) = Nilo.Some w ∧
    (Nilo.None T).Or (Nilo.None T) = Nilo.None T ∧
    (Nilo.Some v).Xor (Nilo.None T) = Nilo.Some v ∧
    (Nilo.None T).Xor (Nilo.Some w) = Nilo.Some w ∧
    (Nilo.Some v).Xor (Nilo.Some w) = Nilo.None T ∧
    (Nilo.None T).Xor (Nilo.None T) = Nilo.None T := by
  refine ⟨rfl, rfl, rfl, rfl, rfl, rfl, rfl, rfl, rfl, rfl, rfl, rfl⟩

/-- C5: `Take` on a binding holding `Some v` returns `Some v` and leaves the
binding `None`, so an immediately following `Take` on the new binding returns
`None`; `Take` on a binding holding `None` returns `None` and leaves the
binding unchanged (still `None`). -/
theorem Nilo.take_contract (T : Type) (v : T) :
    (Nilo.Some v).Take = (Nilo.None T, Nilo.Some v) ∧
    ((Nilo.Some v).Take.1).Take = (Nilo.None T, Nilo.None T) ∧
    (Nilo.None T).Take = (Nilo.None T, Nilo.None T) := by
  refine ⟨rfl, rfl, rfl⟩

/-- C9: a method call with a value receiver leaves the caller's binding
unchanged, whatever the method computes — in particular calls to `Map`,
`Filter` and `Inspect` do not modify the option they are called on, and
`Inspect` additionally returns the original option itself.  Mutation happens
only through the pointer-receiver operations (`Take` and friends). -/
theorem Nilo.value_receiver_frame (T W : Type) (o : Nilo.Option T)
    (m : Nilo.Option T → Nilo.Option T) (f : T → T) (p : T → Bool)
    (c : T → W → W) (w : W) :
    (Nilo.callByValue o m).1 = o ∧
    (Nilo.callByValue o (fun r => r.Map f)).1 = o ∧
    (Nilo.callByValue o (fun r => r.Filter p)).1 = o ∧
    (Nilo.callByValue o (fun r => r.Inspect c w)).1 = o ∧
    (o.Inspect c w).2 = o := by
  refine ⟨rfl, rfl, rfl, rfl, ?_⟩
  cases o with
  | mk value => cases value <;> rfl

/-- C6 (code evaluated at the failing input): on the present optional
`Of 42`, optional.go's `IfPresentOrElse` runs BOTH callbacks — with
invocation counters starting at `(0, 0)` it ends at `(1, 1)`, and with the
callbacks of TestOptional/IfPresentOrElse (consumer stores the value,
or-action stores 24) it produces 24 where the test asserts 42.  On the empty
optional only the or-action runs.  option.go's `InspectOrElse`, by contrast,
runs exactly one callback. -/
theorem Nilo.ifPresentOrElse_runs_both_on_present :
    (Nilo.Of 42).IfPresentOrElse
        (fun _ w => (w.1 + 1, w.2)) (fun w => (w.1, w.2 + 1))
        ((0 : Nat), (0 : Nat)) = (1, 1) ∧
    (Nilo.Of 42).IfPresentOrElse (fun i _ => i) (fun _ => 24) 0 = 24 ∧
    (Nilo.Empty Nat).IfPresentOrElse
        (fun _ w => (w.1 + 1, w.2)) (fun w => (w.1, w.2 + 1))
        ((0 : Nat), (0 : Nat)) = (0, 1) ∧
    (Nilo.Some 42).InspectOrElse
        (fun _ w => (w.1 + 1, w.2)) (fun w => (w.1, w.2 + 1))
        ((0 : Nat), (0 : Nat)) = (1, 0) ∧
    (Nilo.None Nat).InspectOrElse
        (fun _ w => (w.1 + 1, w.2)) (fun w => (w.1, w.2 + 1))
        ((0 : Nat), (0 : Nat)) = (0, 1) := by
  refine ⟨rfl, rfl, rfl, rfl, rfl⟩

/-- C7: on an empty optional, `UnwrapOrDefault` (orDefault) and
`GetOrInsertDefault` resolve the default through the `Default` capability
when `T` declares it and through `T`'s intrinsic zero value otherwise;
`GetOrInsertDefault` additionally leaves the binding present holding the
returned value, while on a present binding both return the existing value
and `GetOrInsertDefault` changes nothing. -/
theorem Nilo.default_resolution_contract (T : Type) (zero v : T)
    (d : T → T) (defCap : Nilo.Ptr (T → T)) :
    (Nilo.None T).UnwrapOrDefault zero (Nilo.Ptr.ref d) = d zero ∧
    (Nilo.None T).UnwrapOrDefault zero Nilo.Ptr.null = zero ∧
    (Nilo.Some v).UnwrapOrDefault zero defCap = v ∧
    (Nilo.None T).GetOrInsertDefault zero (Nilo.Ptr.ref d)
      = (Nilo.Some (d zero), Nilo.Exec.ok (d zero)) ∧
    (Nilo.None T).GetOrInsertDefault zero Nilo.Ptr.null
      = (Nilo.Some zero, Nilo.Exec.ok zero) ∧
    (Nilo.Some v).GetOrInsertDefault zero defCap
      = (Nilo.Some v, Nilo.Exec.ok v) := by
  refine ⟨rfl, rfl, rfl, rfl, rfl, rfl⟩

/-- C8: `OkOrElse` on a present optional returns the pointer to the
contained value with the nil error, leaving the world untouched (so the
error supplier is not invoked — the result does not depend on the supplier
at all); on an empty optional it returns the nil pointer together with the
supplier's error, the supplier having run once on the world.
`Optional.OrError` behaves the same with an eagerly-built error. -/
theorem Nilo.okOrElse_orError_contract (T E W : Type) (v : T) (e : E)
    (errS errT : W → W × E) (w : W) :
    (Nilo.Some v).OkOrElse errS w = (w, (Nilo.Ptr.ref v, Nilo.Ptr.null)) ∧
    (Nilo.Some v).OkOrElse errS w = (Nilo.Some v).OkOrElse errT w ∧
    (Nilo.None T).OkOrElse errS w
      = ((errS w).1, (Nilo.Ptr.null, Nilo.Ptr.ref (errS w).2)) ∧
    (Nilo.Of v).OrError e = (Nilo.Ptr.ref v, Nilo.Ptr.null) ∧
    (Nilo.Empty T).OrError e = (Nilo.Ptr.null, Nilo.Ptr.ref e) := by
  refine ⟨rfl, rfl, rfl, rfl, rfl⟩

/-- C10: `AndPtrResult` on a present optional is empty whenever the applied
function returns a nil pointer — even when the returned error is also nil —
and is present with the pointed-to value exactly when the error is nil and
the pointer is non-nil; on an empty optional it is empty without applying
the function. -/
theorem Nilo.andPtrResult_contract (T E : Type) (v : T)
    (f : T → Nilo.Ptr T × Nilo.Ptr E) :
    (Nilo.Some v).AndPtrResult f =
      (match f v with
       | (Nilo.Ptr.ref r, Nilo.Ptr.null) => Nilo.Some r
       | (Nilo.Ptr.ref _, Nilo.Ptr.ref _) => Nilo.None T
       | (Nilo.Ptr.null, _) => Nilo.None T) ∧
    (Nilo.Some v).AndPtrResult
        (fun _ => ((Nilo.Ptr.null : Nilo.Ptr T), (Nilo.Ptr.null : Nilo.Ptr E)))
      = Nilo.None T ∧
    (Nilo.None T).AndPtrResult f = Nilo.None T := by
  refine ⟨?_, rfl, rfl⟩
  cases hfv : f v with
  | mk p e =>
      cases p <;> cases e <;>
        simp [Nilo.Option.AndPtrResult, Nilo.Some, hfv]

/-- C1 counterexample: with the binding already holding `Some 7`, decoding
the malformed input `"x"` returns the decode error but leaves the binding
`Some 7` — present, not empty, contradicting the claim that the binding is
left empty regardless of its prior state. -/
theorem Nilo.unmarshal_error_keeps_present_binding :
    Nilo.Option.UnmarshalJSON Nilo.natCodec (Nilo.Some 7) "x"
      = (Nilo.Some 7, Nilo.Ptr.ref "invalid") ∧
    Nilo.Some 7 ≠ Nilo.None Nat := by
  exact ⟨rfl, by decide⟩

/-- C1 (amended): if decoding a non-null token fails, `UnmarshalJSON`
returns the decode error and leaves the binding exactly as it was before the
call — in particular a binding that was empty before stays empty. -/
theorem Nilo.unmarshal_error_leaves_binding_unchanged (T : Type)
    (c : Nilo.Codec T) (o : Nilo.Option T) (data e : String)
    (hnull : data ≠ "null") (herr : c.unmarshal data = Except.error e) :
    Nilo.Option.UnmarshalJSON c o data = (o, Nilo.Ptr.ref e) := by
  unfold Nilo.Option.UnmarshalJSON
  rw [if_neg hnull, herr]

/-- Witness for the amended C1 theorem at the concrete input used by the
repository's own test (empty binding, malformed token). -/
theorem Nilo.unmarshal_error_leaves_binding_unchanged_witness :
    Nilo.Option.UnmarshalJSON Nilo.natCodec (Nilo.None Nat) "x"
      = (Nilo.None Nat, Nilo.Ptr.ref "invalid") :=
  Nilo.unmarshal_error_leaves_binding_unchanged Nat Nilo.natCodec
    (Nilo.None Nat) "x" "invalid" (by decide) (by rfl)

/-- C3 counterexample: for the wrapped type `*int` (whose nil value is
encodable and encodes to the literal `null`), the round trip fails:
`Some(nil)` marshals to `null`, which unmarshals to the empty option, not
back to `Some(nil)`. -/
theorem Nilo.roundtrip_fails_on_nil_pointer_payload :
    (Nilo.Option.UnmarshalJSON Nilo.ptrNatCodec (Nilo.None (Nilo.Ptr Nat))
        (Nilo.Option.MarshalJSON Nilo.ptrNatCodec
          (Nilo.Some (Nilo.Ptr.null : Nilo.Ptr Nat))).1).1
      = Nilo.None (Nilo.Ptr Nat) ∧
    Nilo.Some (Nilo.Ptr.null : Nilo.Ptr Nat) ≠ Nilo.None (Nilo.Ptr Nat) := by
  exact ⟨rfl, by decide⟩

/-- C3 (amended): the empty option marshals to the literal null token and a
present option to the wrapped value's own standard encoding; decoding the
encoding of `Some v` into any binding yields `Some v` without error, for
every encodable `v` whose standard encoding inverts correctly and is not
itself the null token; and decoding the encoding of the empty option into
any binding yields the empty option without error. -/
theorem Nilo.marshal_unmarshal_roundtrip (T : Type) (c : Nilo.Codec T)
    (o₀ o₁ : Nilo.Option T) (v : T)
    (hrt : c.unmarshal (c.marshal v) = Except.ok v)
    (hnn : c.marshal v ≠ "null") :
    Nilo.Option.MarshalJSON c (Nilo.Some v) = (c.marshal v, Nilo.Ptr.null) ∧
    Nilo.Option.MarshalJSON c (Nilo.None T) = ("null", Nilo.Ptr.null) ∧
    Nilo.Option.UnmarshalJSON c o₀
        (Nilo.Option.MarshalJSON c (Nilo.Some v)).1
      = (Nilo.Some v, Nilo.Ptr.null) ∧
    Nilo.Option.UnmarshalJSON c o₁
        (Nilo.Option.MarshalJSON c (Nilo.None T)).1
      = (Nilo.None T, Nilo.Ptr.null) := by
  refine ⟨rfl, rfl, ?_, rfl⟩
  show Nilo.Option.UnmarshalJSON c o₀ (c.marshal v) = _
  unfold Nilo.Option.UnmarshalJSON
  rw [if_neg hnn, hrt]
  rfl

/-- Witness for the amended C3 theorem at the integer codec and the value 5:
the round trip through the textual encoding reproduces `Some 5`. -/
theorem Nilo.marshal_unmarshal_roundtrip_witness :
    Nilo.Option.UnmarshalJSON Nilo.natCodec (Nilo.None Nat)
        (Nilo.Option.MarshalJSON Nilo.natCodec (Nilo.Some 5)).1
      = (Nilo.Some 5, Nilo.Ptr.null) :=
  (Nilo.marshal_unmarshal_roundtrip Nat Nilo.natCodec (Nilo.None Nat)
    (Nilo.None Nat) 5 (by rfl) (by decide)).2.2.1
